import Mathlib

/-!
Shallow embedding of the PromptWizard LLM adapter layer
(`promptwizard/glue/common/llm/llm_mgr.py` and
`promptwizard/glue/common/llm/llm_settings.py`) together with proofs of the
specification claims about it.

Conventions of the embedding:
* The process environment is a function `String → Option String`
  (`os.environ.get key default` becomes `Env.get`).
* Python exceptions are values of the inductive `PyError`; fallible code
  returns `Except PyError α`.  `raise X from e` is a `PyError` constructor
  carrying the cause.
* Calls into external provider SDKs (OpenAI / Azure / Ollama clients, token
  providers) are opaque: each caller receives the outcome of its external
  interaction as an explicit `Except PyError String` argument, so theorems
  quantify over every possible external behaviour.
* Logging (`logger.error`, `debug_log`) has no observable effect on the
  values these functions return and is modelled as a no-op.
-/

/-- Python exception values, as far as this layer distinguishes them.
`glueLLMException msg cause` models `raise GlueLLMException(msg) from e`;
`external n` stands for an arbitrary exception raised by a third-party
library (there are infinitely many of them, indexed by `n`). -/
inductive PyError where
  | valueError (msg : String)
  | attributeError (msg : String)
  | glueLLMException (msg : String) (cause : PyError)
  | external (n : Nat)
deriving DecidableEq, Repr

/-- The `__cause__` of a Python exception: set only by `raise ... from e`. -/
def PyError.cause : PyError → Option PyError
  | .glueLLMException _ c => some c
  | _ => none

deriving instance DecidableEq for Except

/-- The process environment: a partial map from variable names to values. -/
def Env : Type := String → Option String

/-- Model of Python `os.environ.get(key, default)`. -/
def Env.get (env : Env) (key default : String) : String :=
  (env key).getD default

/-- Build an environment from an association list (first binding wins),
used to instantiate theorems at concrete environments. -/
def envOf (l : List (String × String)) : Env :=
  fun k => (l.find? (fun p => p.1 = k)).map (fun p => p.2)

/-! ## Message normalizer (`dict_to_chat_messages`) -/

/-- Model of Python `str.lower()` (ASCII fragment), character by
character. -/
def strLower (s : String) : String :=
  ⟨s.data.map Char.toLower⟩

/-- `llama_index.core.llms.MessageRole`, restricted to the three roles this
layer produces. -/
inductive MessageRole where
  | system
  | user
  | assistant
deriving DecidableEq, Repr

/-- `llama_index.core.llms.ChatMessage`: an immutable role/content pair. -/
structure ChatMessage where
  role : MessageRole
  content : String
deriving DecidableEq, Repr

/-- One raw entry of the `"messages"` list: a mapping with optional
`"role"` and `"content"` string fields. -/
structure RawMessage where
  role : Option String
  content : Option String
deriving DecidableEq, Repr

/-- The input mapping of `chat_completion` and the normalizer: it either has
a `"messages"` key bound to a list of entries (`some l`) or lacks the key
(`none`).  (The typed view of the spec input contract
`{messages: sequence of {role?, content?}}`.) -/
structure MessagesDict where
  messages : Option (List RawMessage)
deriving DecidableEq, Repr

/-- Embedding of `dict_to_chat_messages` (llm_mgr.py lines 22-43): raises
`ValueError` when the `"messages"` key is absent, otherwise converts each
entry, reading the role case-insensitively (default `"user"`) and the
content with default `""`. -/
def dict_to_chat_messages (messages_dict : MessagesDict) :
    Except PyError (List ChatMessage) :=
  match messages_dict.messages with
  | none => .error (.valueError "Expected 'messages' key in the dictionary.")
  | some msgs => .ok (msgs.map (fun msg =>
      let role_str := strLower (msg.role.getD "user")
      let role : MessageRole :=
        if role_str = "assistant" then .assistant
        else if role_str = "system" then .system
        else .user
      { role := role, content := msg.content.getD "" }))

/-- The per-entry conversion as the specification words it: role read
case-insensitively from the optional `"role"` field (`"assistant"` →
ASSISTANT, `"system"` → SYSTEM, anything else or absent → USER), content
from the optional `"content"` field defaulting to `""`.  Stated separately
from `dict_to_chat_messages` so the code can be compared against it. -/
def specChatMessage (msg : RawMessage) : ChatMessage :=
  { role :=
      match msg.role with
      | some r =>
          if strLower r = "assistant" then .assistant
          else if strLower r = "system" then .system
          else .user
      | none => .user,
    content := msg.content.getD "" }

/-! ## Config resolver (`llm_settings.py`) -/

/-- Embedding of `use_openai_api_key` (llm_settings.py lines 7-14):
`os.environ.get("USE_OPENAI_API_KEY", "False") == "True"`. -/
def use_openai_api_key (env : Env) : Bool :=
  env.get "USE_OPENAI_API_KEY" "False" = "True"

/-- Embedding of `get_model_type` (llm_settings.py lines 81-88):
`os.environ.get("MODEL_TYPE", "AzureOpenAI")`. -/
def get_model_type (env : Env) : String :=
  env.get "MODEL_TYPE" "AzureOpenAI"

/-- Result record of `get_openai_config`. -/
structure OpenAIConfig where
  api_key : String
  model_name : String
  temperature : Rat
deriving DecidableEq, Repr

/-- Embedding of `get_openai_config` (llm_settings.py lines 17-35): missing
variables become empty strings, temperature is the constant `0.0`; the
function never fails (the empty-key warning is a log-only effect). -/
def get_openai_config (env : Env) : OpenAIConfig :=
  { api_key := env.get "OPENAI_API_KEY" ""
    model_name := env.get "OPENAI_MODEL_NAME" ""
    temperature := 0 }

/-- Result record of `get_azure_config`. -/
structure AzureConfig where
  api_version : String
  azure_endpoint : String
  deployment_name : String
  temperature : Rat
deriving DecidableEq, Repr

/-- Embedding of `get_azure_config` (llm_settings.py lines 38-61): missing
variables become empty strings, temperature is the constant `0.0`; never
fails. -/
def get_azure_config (env : Env) : AzureConfig :=
  { api_version := env.get "OPENAI_API_VERSION" ""
    azure_endpoint := env.get "AZURE_OPENAI_ENDPOINT" ""
    deployment_name := env.get "AZURE_OPENAI_DEPLOYMENT_NAME" ""
    temperature := 0 }

/-! ### Model of Python `float(str)`

`get_ollama_config` calls the builtin `float` on the environment value.
We model the value space as `PyFloat` (exact rationals plus the special
values) and the parser as `pythonFloat`, following the grammar accepted by
CPython for ASCII inputs: optional surrounding whitespace, an optional
sign, then either the keywords `inf` / `infinity` / `nan`
(case-insensitively) or a decimal literal with optional fractional part and
exponent, where underscores may appear between digits. -/

/-- The possible results of Python `float()`: a finite value (kept exact as
a rational), a signed infinity, or NaN. -/
inductive PyFloat where
  | finite (q : Rat)
  | inf (pos : Bool)
  | nan
deriving DecidableEq, Repr

/-- Whitespace characters stripped by `float()` (ASCII fragment). -/
def isPyWS (c : Char) : Bool :=
  c = ' ' || c = '\t' || c = '\n' || c = '\r' || c = '\x0b' || c = '\x0c'

/-- Strip leading and trailing whitespace. -/
def trimWS (cs : List Char) : List Char :=
  ((cs.dropWhile isPyWS).reverse.dropWhile isPyWS).reverse

/-- Consume an optional leading sign; `true` means non-negative. -/
def parseSign : List Char → Bool × List Char
  | '+' :: cs => (true, cs)
  | '-' :: cs => (false, cs)
  | cs => (true, cs)

/-- Consume a maximal digit group `digit (["_"] digit)*`: returns the value
so far, the number of digits consumed (`n`, starting from the caller's
`0`), and the rest.  Per CPython an underscore is legal only BETWEEN
digits: it is consumed only when a digit in this group precedes it
(`n != 0`; the previously consumed character is then a digit) and a digit
follows it directly, so a group-leading underscore ends the group at once
and inputs such as `"_5"`, `"1._5"` or `"1e_5"` are rejected by the
callers. -/
def digitsAux : List Char → Nat → Nat → Nat × Nat × List Char
  | [], acc, n => (acc, n, [])
  | '_' :: d :: cs2, acc, n =>
    if (n != 0) && d.isDigit then digitsAux cs2 (acc * 10 + (d.toNat - 48)) (n + 1)
    else (acc, n, '_' :: d :: cs2)
  | c :: cs, acc, n =>
    if c.isDigit then digitsAux cs (acc * 10 + (c.toNat - 48)) (n + 1)
    else (acc, n, c :: cs)

/-- Parse an optional exponent part `("e"|"E") [sign] digits`, which must
consume the whole rest of the input; returns the exponent's sign (`true`
for non-negative) and magnitude, `(true, 0)` when there is none. -/
def parseExpPart : List Char → Option (Bool × Nat)
  | [] => some (true, 0)
  | c :: cs =>
    if c = 'e' || c = 'E' then
      let sp := parseSign cs
      let dg := digitsAux sp.2 0 0
      if dg.2.1 = 0 then none
      else if dg.2.2 = [] then some (sp.1, dg.1)
      else none
    else none

/-- Parse an unsigned decimal literal `digits ["." [digits]] [exp]` or
`"." digits [exp]` (at least one digit overall), consuming all input; the
value `mantissa / 10^fracLen * 10^±exp` is assembled exactly with
`mkRat`. -/
def parseNumber (cs : List Char) : Option Rat :=
  let ip := digitsAux cs 0 0
  match ip.2.2 with
  | '.' :: rest2 =>
    let fp := digitsAux rest2 0 0
    if ip.2.1 = 0 && fp.2.1 = 0 then none
    else
      match parseExpPart fp.2.2 with
      | none => none
      | some ex =>
          some (if ex.1 then
                  mkRat ((ip.1 * 10 ^ fp.2.1 + fp.1) * 10 ^ ex.2) (10 ^ fp.2.1)
                else
                  mkRat (ip.1 * 10 ^ fp.2.1 + fp.1) (10 ^ fp.2.1 * 10 ^ ex.2))
  | rest =>
    if ip.2.1 = 0 then none
    else
      match parseExpPart rest with
      | none => none
      | some ex =>
          some (if ex.1 then mkRat (ip.1 * 10 ^ ex.2) 1
                else mkRat ip.1 (10 ^ ex.2))

/-- Model of the Python builtin `float(s)`: `none` when `float` would raise
`ValueError`. -/
def pythonFloat (s : String) : Option PyFloat :=
  let cs := trimWS s.toList
  let sp := parseSign cs
  let low := sp.2.map Char.toLower
  if low = "inf".toList || low = "infinity".toList then some (.inf sp.1)
  else if low = "nan".toList then some .nan
  else (parseNumber sp.2).map (fun q => .finite (if sp.1 then q else -q))

/-- Result record of `get_ollama_config`. -/
structure OllamaConfig where
  base_url : String
  model_name : String
  temperature : PyFloat
deriving DecidableEq, Repr

/-- Embedding of `get_ollama_config` (llm_settings.py lines 63-79):
defaults `"http://localhost:11434"`, `"llama2"`, `"0.75"`; the temperature
string goes through `float`, whose `ValueError` propagates uncaught. -/
def get_ollama_config (env : Env) : Except PyError OllamaConfig :=
  let base_url := env.get "OLLAMA_BASE_URL" "http://localhost:11434"
  let model_name := env.get "OLLAMA_MODEL" "llama2"
  match pythonFloat (env.get "OLLAMA_TEMPERATURE" "0.75") with
  | none => .error (.valueError "could not convert string to float")
  | some t => .ok { base_url := base_url, model_name := model_name, temperature := t }

/-! ## Provider callers and dispatcher (`llm_mgr.py`)

Each caller's interaction with its external SDK (client construction, the
HTTP request, and extraction of the first choice's content) is opaque to
this layer; we pass its outcome in as an `Except PyError String`. -/

/-- Outcome of one external provider interaction: the completion string, or
the exception the SDK raised. -/
def CallResult : Type := Except PyError String

/-- The external outcomes available to the dispatcher, one per provider. -/
structure Transports where
  openai : CallResult
  azure : CallResult
  ollama : CallResult

/-- Embedding of `_call_openai_api` (llm_mgr.py lines 45-71): resolves the
OpenAI config (total), normalizes the messages (a `ValueError` here
propagates unwrapped, it is raised before the `try`), then performs the
external call; any exception from the `try` body is re-raised as
`GlueLLMException("Error calling OpenAI API") from e`. -/
def _call_openai_api (env : Env) (transport : CallResult)
    (messages : MessagesDict) : Except PyError String := do
  let _openai_cfg := get_openai_config env
  let _chat_messages ← dict_to_chat_messages messages
  match transport with
  | .ok prediction => .ok prediction
  | .error e => .error (.glueLLMException "Error calling OpenAI API" e)

/-- Embedding of `_call_azure_api` (llm_mgr.py lines 73-97): resolves the
Azure config (total), then performs the external interaction (token
acquisition, client construction, request) on the RAW message mapping —
no normalization — and lets every failure propagate unwrapped. -/
def _call_azure_api (env : Env) (transport : CallResult)
    (_messages : MessagesDict) : Except PyError String :=
  let _azure_cfg := get_azure_config env
  transport

/-- Embedding of `_call_ollama_api` (llm_mgr.py lines 99-115): resolves the
Ollama config (its `ValueError` propagates), normalizes the messages
(its `ValueError` propagates), then performs the external call; failures
propagate unwrapped.  The `response.message.content if response.message
else ""` extraction is part of the opaque external outcome. -/
def _call_ollama_api (env : Env) (transport : CallResult)
    (messages : MessagesDict) : Except PyError String := do
  let _cfg ← get_ollama_config env
  let _chat_messages ← dict_to_chat_messages messages
  transport

/-- Embedding of `env_based_chat_completion` (llm_mgr.py lines 118-128):
`"Ollama"` model type first, then the OpenAI key flag, else Azure. -/
def env_based_chat_completion (env : Env) (t : Transports)
    (messages : MessagesDict) : Except PyError String :=
  let provider := get_model_type env
  if provider = "Ollama" then _call_ollama_api env t.ollama messages
  else if use_openai_api_key env then _call_openai_api env t.openai messages
  else _call_azure_api env t.azure messages

/-- The fixed fallback sentence of `LLMMgr._handle_llm_error`. -/
def fallbackMessage : String :=
  "Sorry, I am not able to understand your query. Please try again."

/-- Embedding of `LLMMgr._handle_llm_error` (llm_mgr.py lines 132-135):
logs (no-op here) and returns the fixed fallback sentence. -/
def LLMMgr._handle_llm_error (_e : PyError) (_provider_name : String)
    (_messages : MessagesDict) : String :=
  fallbackMessage

/-- Embedding of `LLMMgr.chat_completion` (llm_mgr.py lines 137-143):
resolves the provider name (total), invokes the dispatcher, and converts
ANY raised exception into the fallback sentence.  The Lean return type
`String` witnesses that it is total. -/
def LLMMgr.chat_completion (env : Env) (t : Transports)
    (messages : MessagesDict) : String :=
  let llm_handle := get_model_type env
  match env_based_chat_completion env t messages with
  | .ok s => s
  | .error e => LLMMgr._handle_llm_error e llm_handle messages

/-! ## Model pool configuration (`LLMConfig`)

`LLMConfig` lives in `promptwizard/glue/common/base_classes.py`, which is
not among the provided sources; its shape is modelled from the spec. -/

/-- Modelled from the spec: one Azure model entry of the pool
configuration ("each with a unique id, model type tag, deployment name,
token-tracking flag"); `model_name_in_azure` and
`deployment_name_in_azure` are the field names `get_llm_pool` reads. -/
structure AzureOAIModel where
  unique_model_id : String
  model_type : String
  model_name_in_azure : String
  deployment_name_in_azure : String
  track_tokens : Bool
deriving DecidableEq, Repr

/-- Modelled from the spec: one custom model entry ("unique id,
implementing class reference, token-tracking flag"); `class_name` and
`path_to_py_file` are the field names `get_llm_pool` reads. -/
structure CustomModel where
  unique_model_id : String
  model_type : String
  class_name : String
  path_to_py_file : String
  track_tokens : Bool
deriving DecidableEq, Repr

/-- Modelled from the spec: the Azure section of the pool configuration,
with the connection fields `get_llm_pool` reads and the list of model
entries. -/
structure AzureOpenAIConfig where
  api_key : String
  azure_endpoint : String
  api_version : String
  use_azure_ad : Bool
  azure_oai_models : List AzureOAIModel
deriving DecidableEq, Repr

/-- Modelled from the spec: the pool configuration `LLMConfig` — an
optional Azure section and zero-or-more custom model entries
("zero-or-more custom model entries"); `none` models a Python `None`
field (falsy, like an empty list). -/
structure LLMConfig where
  azure_open_ai : Option AzureOpenAIConfig
  custom_models : Option (List CustomModel)
deriving DecidableEq, Repr

/-- Modelled from the spec: the model-type tags of
`constants.str_literals.LLMOutputTypes` (the module is not among the
provided sources).  Only their distinctness matters to the claims. -/
def LLMOutputTypes.CHAT : String := "chat"

/-- Modelled from the spec: see `LLMOutputTypes.CHAT`. -/
def LLMOutputTypes.COMPLETION : String := "completion"

/-- Modelled from the spec: see `LLMOutputTypes.CHAT`. -/
def LLMOutputTypes.EMBEDDINGS : String := "embeddings"

/-- Modelled from the spec: see `LLMOutputTypes.CHAT`. -/
def LLMOutputTypes.MULTI_MODAL : String := "multi_modal"

/-! ## Model pool builder (`LLMMgr.get_llm_pool` and friends) -/

/-- Model of a `CallbackManager` wrapping one `TokenCountingHandler` whose
counts have just been reset (`token_counter.reset_counts()`):
`tokenizer_src` records where the tokenizer came from (the Azure model
name for `maybe_add_token_counter`, the custom class for custom models). -/
structure TokenCountingHandler where
  tokenizer_src : String
  total_embedding_token_count : Nat := 0
  prompt_llm_token_count : Nat := 0
  completion_llm_token_count : Nat := 0
  total_llm_token_count : Nat := 0
deriving DecidableEq, Repr

/-- Embedding of the nested `maybe_add_token_counter` (llm_mgr.py lines
169-181): `none` unless `track_tokens`, else a fresh counting manager for
the given model name. -/
def maybe_add_token_counter (track_tokens : Bool) (model_name : String) :
    Option TokenCountingHandler :=
  if !track_tokens then none
  else some { tokenizer_src := model_name }

/-- The opaque model handles `get_llm_pool` registers, one constructor per
underlying constructor call, carrying exactly the arguments the source
passes (opaque collaborator arguments — the Azure AD token provider, the
dynamically loaded class object — are represented by the configuration
strings that produced them). -/
inductive Handle where
  /-- `AzureOpenAI(azure_ad_token_provider=…, api_key=…, azure_endpoint=…,
  api_version=…)` — note: no model name and no callback manager. -/
  | azureOpenAI (api_key azure_endpoint api_version : String)
  /-- `AzureOpenAIEmbedding(use_azure_ad=…, …, callback_manager=…)`. -/
  | azureEmbedding (use_azure_ad : Bool)
      (model deployment_name api_key azure_endpoint api_version : String)
      (callback_manager : Option TokenCountingHandler)
  /-- `AzureOpenAIMultiModal(use_azure_ad=…, …, max_new_tokens=4096)` —
  note: no callback manager. -/
  | azureMultiModal (use_azure_ad : Bool)
      (model deployment_name api_key azure_endpoint api_version : String)
      (max_new_tokens : Nat)
  /-- `custom_llm_class(callback_manager=…)` for a dynamically loaded
  custom class. -/
  | custom (class_name path_to_py_file : String)
      (callback_manager : Option TokenCountingHandler)
deriving DecidableEq, Repr

/-- The callback manager a handle was constructed with (`none` for the
constructors that are not passed one). -/
def Handle.callbackManager : Handle → Option TokenCountingHandler
  | .azureOpenAI _ _ _ => none
  | .azureEmbedding _ _ _ _ _ _ cb => cb
  | .azureMultiModal _ _ _ _ _ _ _ => none
  | .custom _ _ cb => cb

/-- A Python `dict` as an insertion-ordered association list with unique
keys. -/
abbrev PyDict : Type := List (String × Handle)

/-- Python `d[k] = v`: update in place when the key is present, append
otherwise. -/
def dictSet (d : PyDict) (k : String) (v : Handle) : PyDict :=
  if d.any (fun p => p.1 = k) then
    d.map (fun p => if p.1 = k then (k, v) else p)
  else d ++ [(k, v)]

/-- Uncurried `dictSet`, the step function of the pool-building fold. -/
def dictSetP (d : PyDict) (p : String × Handle) : PyDict :=
  dictSet d p.1 p.2

/-- Python `d.get(k)` / `d[k]` lookup. -/
def dictGet (d : PyDict) (k : String) : Option Handle :=
  (d.find? (fun p => p.1 = k)).map (fun p => p.2)

/-- The keys of a dict, in insertion order. -/
def dictKeys (d : PyDict) : List String :=
  d.map (fun p => p.1)

/-- Embedding of `LLMMgr.get_llm_pool` (llm_mgr.py lines 158-261): for each
Azure entry, build the token counter (line 207) and then register the
handle the matching branch constructs — chat/completion handles are built
WITHOUT the counter and without the entry's model name (lines 212-219);
then register one handle per custom entry.  Library installation and
imports are environment side effects with no influence on the result. -/
def LLMMgr.get_llm_pool (llm_config : LLMConfig) : PyDict :=
  let pool1 : PyDict :=
    match llm_config.azure_open_ai with
    | none => []
    | some az_llm_config =>
        az_llm_config.azure_oai_models.foldl (fun llm_pool azure_oai_model =>
          let callback_mgr := maybe_add_token_counter
            azure_oai_model.track_tokens azure_oai_model.model_name_in_azure
          if azure_oai_model.model_type = LLMOutputTypes.CHAT ∨
              azure_oai_model.model_type = LLMOutputTypes.COMPLETION then
            dictSet llm_pool azure_oai_model.unique_model_id
              (.azureOpenAI az_llm_config.api_key az_llm_config.azure_endpoint
                az_llm_config.api_version)
          else if azure_oai_model.model_type = LLMOutputTypes.EMBEDDINGS then
            dictSet llm_pool azure_oai_model.unique_model_id
              (.azureEmbedding az_llm_config.use_azure_ad
                azure_oai_model.model_name_in_azure
                azure_oai_model.deployment_name_in_azure
                az_llm_config.api_key az_llm_config.azure_endpoint
                az_llm_config.api_version callback_mgr)
          else if azure_oai_model.model_type = LLMOutputTypes.MULTI_MODAL then
            dictSet llm_pool azure_oai_model.unique_model_id
              (.azureMultiModal az_llm_config.use_azure_ad
                azure_oai_model.model_name_in_azure
                azure_oai_model.deployment_name_in_azure
                az_llm_config.api_key az_llm_config.azure_endpoint
                az_llm_config.api_version 4096)
          else llm_pool) []
  match llm_config.custom_models with
  | none => pool1
  | some customs =>
      customs.foldl (fun llm_pool custom_model =>
        let callback_mgr :=
          if custom_model.track_tokens then
            some { tokenizer_src := custom_model.class_name :
                   TokenCountingHandler }
          else none
        dictSet llm_pool custom_model.unique_model_id
          (.custom custom_model.class_name custom_model.path_to_py_file
            callback_mgr)) pool1

/-- The handle one Azure entry contributes (the body of the Azure loop of
`get_llm_pool`, factored per entry): `none` when the entry's type tag
matches no branch and nothing is registered. -/
def azureEntryHandle (az : AzureOpenAIConfig) (m : AzureOAIModel) :
    Option Handle :=
  let callback_mgr := maybe_add_token_counter m.track_tokens m.model_name_in_azure
  if m.model_type = LLMOutputTypes.CHAT ∨
      m.model_type = LLMOutputTypes.COMPLETION then
    some (.azureOpenAI az.api_key az.azure_endpoint az.api_version)
  else if m.model_type = LLMOutputTypes.EMBEDDINGS then
    some (.azureEmbedding az.use_azure_ad m.model_name_in_azure
      m.deployment_name_in_azure az.api_key az.azure_endpoint az.api_version
      callback_mgr)
  else if m.model_type = LLMOutputTypes.MULTI_MODAL then
    some (.azureMultiModal az.use_azure_ad m.model_name_in_azure
      m.deployment_name_in_azure az.api_key az.azure_endpoint az.api_version
      4096)
  else none

/-- The handle one custom entry contributes (the body of the custom loop of
`get_llm_pool`, factored per entry). -/
def customEntryHandle (c : CustomModel) : Handle :=
  .custom c.class_name c.path_to_py_file
    (if c.track_tokens then
      some { tokenizer_src := c.class_name : TokenCountingHandler }
     else none)

/-- The sequence of `(unique_model_id, handle)` assignments `get_llm_pool`
performs, in program order: Azure entries first (skipping entries whose
type tag matches no branch), then custom entries. -/
def registrations (llm_config : LLMConfig) : List (String × Handle) :=
  (match llm_config.azure_open_ai with
   | none => []
   | some az =>
       az.azure_oai_models.filterMap (fun m =>
         (azureEntryHandle az m).map (fun h => (m.unique_model_id, h))))
  ++ (match llm_config.custom_models with
      | none => []
      | some customs =>
          customs.map (fun c => (c.unique_model_id, customEntryHandle c)))

/-- Embedding of `LLMMgr.get_all_model_ids_of_type` (llm_mgr.py lines
146-156).  The Azure loop collects matching ids in declaration order.  The
custom branch is translated as the source stands: it evaluates
`llm_config.custom_models.model_type`, and since `custom_models` is a LIST
of entries (as `get_llm_pool` iterates it and the spec describes it), a
truthy (non-empty) list makes this attribute access raise
`AttributeError`; a falsy value (absent or empty) skips the branch. -/
def LLMMgr.get_all_model_ids_of_type (llm_config : LLMConfig)
    (llm_output_type : String) : Except PyError (List String) :=
  let res : List String :=
    match llm_config.azure_open_ai with
    | none => []
    | some az =>
        az.azure_oai_models.foldl (fun res azure_model =>
          if azure_model.model_type = llm_output_type then
            res ++ [azure_model.unique_model_id]
          else res) []
  match llm_config.custom_models with
  | some (_ :: _) =>
      .error (.attributeError "list object has no attribute model_type")
  | _ => .ok res

/-- What the specification says `get_all_model_ids_of_type` returns: the
ids of the matching Azure entries in declaration order, followed by the
ids of the matching custom entries in declaration order. -/
def spec_get_all_model_ids_of_type (llm_config : LLMConfig)
    (llm_output_type : String) : List String :=
  (match llm_config.azure_open_ai with
   | none => []
   | some az =>
       (az.azure_oai_models.filter
         (fun m => m.model_type = llm_output_type)).map
         (fun m => m.unique_model_id))
  ++ (match llm_config.custom_models with
      | none => []
      | some customs =>
          (customs.filter (fun c => c.model_type = llm_output_type)).map
            (fun c => c.unique_model_id))

/-- Modelled from the spec: the token-count keys of
`constants.str_literals.LLMLiterals` (module not among the provided
sources). -/
def LLMLiterals.EMBEDDING_TOKEN_COUNT : String := "embedding_token_count"

/-- Modelled from the spec: see `LLMLiterals.EMBEDDING_TOKEN_COUNT`. -/
def LLMLiterals.PROMPT_LLM_TOKEN_COUNT : String := "prompt_llm_token_count"

/-- Modelled from the spec: see `LLMLiterals.EMBEDDING_TOKEN_COUNT`. -/
def LLMLiterals.COMPLETION_LLM_TOKEN_COUNT : String := "completion_llm_token_count"

/-- Modelled from the spec: see `LLMLiterals.EMBEDDING_TOKEN_COUNT`. -/
def LLMLiterals.TOTAL_LLM_TOKEN_COUNT : String := "total_llm_token_count"

/-- Modelled from the spec: `llm_helper.get_token_counter` (module not
among the provided sources) retrieves the token counter attached to a
handle, `None` when none is attached — per spec 4.5, `get_tokens_used`
"returns null if the handle has no attached counter". -/
def get_token_counter (llm_handle : Handle) : Option TokenCountingHandler :=
  llm_handle.callbackManager

/-- Embedding of `LLMMgr.get_tokens_used` (llm_mgr.py lines 263-279):
`None` when no counter is attached, else the dict of the four counts. -/
def LLMMgr.get_tokens_used (llm_handle : Handle) :
    Option (List (String × Nat)) :=
  match get_token_counter llm_handle with
  | some token_counter => some
      [ (LLMLiterals.EMBEDDING_TOKEN_COUNT, token_counter.total_embedding_token_count),
        (LLMLiterals.PROMPT_LLM_TOKEN_COUNT, token_counter.prompt_llm_token_count),
        (LLMLiterals.COMPLETION_LLM_TOKEN_COUNT, token_counter.completion_llm_token_count),
        (LLMLiterals.TOTAL_LLM_TOKEN_COUNT, token_counter.total_llm_token_count) ]
  | none => none

/-! ## Concrete instances used to instantiate the theorems -/

/-- A chat-type Azure entry with token tracking enabled. -/
def mChatTrack : AzureOAIModel :=
  { unique_model_id := "m1", model_type := LLMOutputTypes.CHAT,
    model_name_in_azure := "gpt-4", deployment_name_in_azure := "dep-4",
    track_tokens := true }

/-- An embeddings-type Azure entry sharing `mChatTrack`'s unique id. -/
def mEmbedDup : AzureOAIModel :=
  { unique_model_id := "m1", model_type := LLMOutputTypes.EMBEDDINGS,
    model_name_in_azure := "ada", deployment_name_in_azure := "dep-a",
    track_tokens := false }

/-- An Azure section holding the two entries above (same unique id). -/
def azDup : AzureOpenAIConfig :=
  { api_key := "key", azure_endpoint := "https://azure.example",
    api_version := "v1", use_azure_ad := true,
    azure_oai_models := [mChatTrack, mEmbedDup] }

/-- A pool configuration with two Azure entries sharing one unique id. -/
def cfgDup : LLMConfig :=
  { azure_open_ai := some azDup, custom_models := none }

/-- A custom model entry of chat type. -/
def customChat : CustomModel :=
  { unique_model_id := "c1", model_type := LLMOutputTypes.CHAT,
    class_name := "MyLLM", path_to_py_file := "my_llm.py",
    track_tokens := false }

/-- A pool configuration with one custom entry and no Azure section. -/
def cfgCustomOnly : LLMConfig :=
  { azure_open_ai := none, custom_models := some [customChat] }

/-! # Theorems

First, library lemmas about the Python-dict operations and the shape of
`get_llm_pool`, shared by several claims. -/

/-- Updating a present key maps the entry list pointwise. -/
theorem find?_map_update (d : PyDict) (k : String) (v : Handle) :
    ((d.map (fun p => if p.1 = k then (k, v) else p)).find?
        (fun p => p.1 = k)) =
      if d.any (fun p => p.1 = k) then some (k, v) else none := by
  induction d with
  | nil => simp
  | cons p t ih =>
    by_cases hp : p.1 = k
    · simp [hp, List.find?_cons]
    · have hd : (decide (p.1 = k)) = false := decide_eq_false hp
      simp only [List.map_cons, if_neg hp, List.find?_cons, List.any_cons, hd,
        Bool.false_or]
      exact ih

/-- Looking up the key just assigned returns the assigned value. -/
theorem dictGet_dictSet_self (d : PyDict) (k : String) (v : Handle) :
    dictGet (dictSet d k v) k = some v := by
  unfold dictGet dictSet
  by_cases h : d.any (fun p => p.1 = k)
  · rw [if_pos h, find?_map_update, if_pos h]
    rfl
  · rw [if_neg h, List.find?_append]
    have hnone : d.find? (fun p => p.1 = k) = none := by
      rw [List.find?_eq_none]
      intro x hx
      simp only [decide_eq_true_eq]
      intro hxk
      exact h (List.any_eq_true.mpr ⟨x, hx, by simpa using hxk⟩)
    simp [hnone, List.find?_cons]

/-- Updating the entries of key `k` does not change what `find?` sees for
another key `k'`. -/
theorem find?_map_update_ne (d : PyDict) (k : String) (v : Handle)
    (k' : String) (hne : k' ≠ k) :
    ((d.map (fun p => if p.1 = k then (k, v) else p)).find?
        (fun p => p.1 = k')) =
      d.find? (fun p => p.1 = k') := by
  induction d with
  | nil => simp
  | cons p t ih =>
    by_cases hp : p.1 = k
    · have h1 : (decide (p.1 = k')) = false := by
        rw [hp]; exact decide_eq_false (Ne.symm hne)
      have h2 : (decide ((k : String) = k')) = false :=
        decide_eq_false (Ne.symm hne)
      simp only [List.map_cons, if_pos hp, List.find?_cons, h1, h2]
      exact ih
    · simp only [List.map_cons, if_neg hp, List.find?_cons]
      cases hq : (decide (p.1 = k')) with
      | true => rfl
      | false => exact ih

/-- Assigning one key leaves lookups of every other key unchanged. -/
theorem dictGet_dictSet_ne (d : PyDict) (k : String) (v : Handle)
    (k' : String) (hne : k' ≠ k) :
    dictGet (dictSet d k v) k' = dictGet d k' := by
  unfold dictGet dictSet
  by_cases h : d.any (fun p => p.1 = k)
  · rw [if_pos h, find?_map_update_ne d k v k' hne]
  · rw [if_neg h, List.find?_append]
    have h2 : (decide ((k : String) = k')) = false :=
      decide_eq_false (Ne.symm hne)
    cases hq : d.find? (fun p => p.1 = k') <;>
      simp [hq, Option.orElse, List.find?_cons, h2]

/-- Lookup after folding a list of assignments: the LAST assignment of the
key wins; keys never assigned fall through to the initial dict. -/
theorem dictGet_foldl_dictSetP (l : List (String × Handle)) (d : PyDict)
    (k : String) :
    dictGet (l.foldl dictSetP d) k =
      match l.reverse.find? (fun p => p.1 = k) with
      | some p => some p.2
      | none => dictGet d k := by
  induction l generalizing d with
  | nil => simp
  | cons p t ih =>
    rw [List.foldl_cons, ih, List.reverse_cons, List.find?_append]
    cases hf : t.reverse.find? (fun q => q.1 = k) with
    | some q => simp [Option.orElse]
    | none =>
      by_cases hp : p.1 = k
      · simp only [Option.orElse, List.find?_cons, decide_eq_true hp]
        subst hp
        simp [dictSetP, dictGet_dictSet_self]
      · have hd : (decide (p.1 = k)) = false := decide_eq_false hp
        simp only [Option.orElse, List.find?_cons, hd]
        simp [dictSetP, dictGet_dictSet_ne _ _ _ _ (fun hk => hp hk.symm)]

/-- `dictSet` keeps the key list unchanged when the key is present and
appends the key otherwise. -/
theorem dictKeys_dictSet (d : PyDict) (k : String) (v : Handle) :
    dictKeys (dictSet d k v) =
      if d.any (fun p => p.1 = k) then dictKeys d else dictKeys d ++ [k] := by
  unfold dictKeys dictSet
  by_cases h : d.any (fun p => p.1 = k)
  · rw [if_pos h, if_pos h, List.map_map]
    apply List.map_congr_left
    intro p _
    by_cases hp : p.1 = k <;> simp [hp]
  · rw [if_neg h, if_neg h, List.map_append]
    rfl

/-- `dictSet` preserves distinctness of keys. -/
theorem nodup_dictKeys_dictSet (d : PyDict) (k : String) (v : Handle)
    (h : (dictKeys d).Nodup) : (dictKeys (dictSet d k v)).Nodup := by
  rw [dictKeys_dictSet]
  by_cases ha : d.any (fun p => p.1 = k)
  · rwa [if_pos ha]
  · rw [if_neg ha]
    refine h.append (List.nodup_singleton k) ?_
    intro x hx hxk
    apply ha
    rw [List.mem_singleton] at hxk
    subst hxk
    rcases List.mem_map.mp hx with ⟨p, hp, rfl⟩
    exact List.any_eq_true.mpr ⟨p, hp, by simp⟩

/-- Folding any sequence of assignments over a dict with distinct keys
yields a dict with distinct keys: the final pool has one entry per
distinct id. -/
theorem nodup_dictKeys_foldl (l : List (String × Handle)) (d : PyDict)
    (h : (dictKeys d).Nodup) :
    (dictKeys (l.foldl dictSetP d)).Nodup := by
  induction l generalizing d with
  | nil => exact h
  | cons p t ih =>
    rw [List.foldl_cons]
    exact ih _ (nodup_dictKeys_dictSet _ _ _ h)

/-- A loop that conditionally assigns per element equals folding the plain
assignments over the `filterMap` of the per-element action. -/
theorem foldl_filterMap_body {α : Type} (f : α → Option (String × Handle))
    (g : PyDict → α → PyDict) (l : List α) (d : PyDict)
    (hg : ∀ pool a, g pool a =
      match f a with
      | some p => dictSetP pool p
      | none => pool) :
    l.foldl g d = (l.filterMap f).foldl dictSetP d := by
  induction l generalizing d with
  | nil => simp
  | cons a t ih =>
    rw [List.foldl_cons, hg, List.filterMap_cons]
    cases hf : f a with
    | some p => simp only [hf, List.foldl_cons, ih]
    | none => simp only [hf, ih]

/-- The Azure loop of `get_llm_pool` equals folding the per-entry
registrations of `azureEntryHandle`. -/
theorem azure_foldl_eq (az : AzureOpenAIConfig) (d : PyDict) :
    az.azure_oai_models.foldl (fun llm_pool azure_oai_model =>
      let callback_mgr := maybe_add_token_counter
        azure_oai_model.track_tokens azure_oai_model.model_name_in_azure
      if azure_oai_model.model_type = LLMOutputTypes.CHAT ∨
          azure_oai_model.model_type = LLMOutputTypes.COMPLETION then
        dictSet llm_pool azure_oai_model.unique_model_id
          (.azureOpenAI az.api_key az.azure_endpoint az.api_version)
      else if azure_oai_model.model_type = LLMOutputTypes.EMBEDDINGS then
        dictSet llm_pool azure_oai_model.unique_model_id
          (.azureEmbedding az.use_azure_ad azure_oai_model.model_name_in_azure
            azure_oai_model.deployment_name_in_azure az.api_key
            az.azure_endpoint az.api_version callback_mgr)
      else if azure_oai_model.model_type = LLMOutputTypes.MULTI_MODAL then
        dictSet llm_pool azure_oai_model.unique_model_id
          (.azureMultiModal az.use_azure_ad azure_oai_model.model_name_in_azure
            azure_oai_model.deployment_name_in_azure az.api_key
            az.azure_endpoint az.api_version 4096)
      else llm_pool) d
    = (az.azure_oai_models.filterMap (fun m =>
        (azureEntryHandle az m).map (fun h => (m.unique_model_id, h)))).foldl
        dictSetP d := by
  apply foldl_filterMap_body
  intro pool m
  dsimp only [azureEntryHandle]
  split_ifs <;> rfl

/-- `get_llm_pool` is exactly the fold of its registration sequence over
the empty dict. -/
theorem get_llm_pool_eq_foldl (llm_config : LLMConfig) :
    LLMMgr.get_llm_pool llm_config =
      (registrations llm_config).foldl dictSetP [] := by
  obtain ⟨az?, cm?⟩ := llm_config
  cases az? with
  | none =>
    cases cm? with
    | none => rfl
    | some customs =>
      dsimp only [LLMMgr.get_llm_pool, registrations]
      rw [List.nil_append, List.foldl_map]
      rfl
  | some az =>
    cases cm? with
    | none =>
      dsimp only [LLMMgr.get_llm_pool, registrations]
      rw [List.append_nil, azure_foldl_eq]
    | some customs =>
      dsimp only [LLMMgr.get_llm_pool, registrations]
      rw [azure_foldl_eq, List.foldl_append, List.foldl_map]
      rfl

/-! ## Claim theorems -/

/-- **C1.** For every environment, every external provider behaviour and
every input mapping, `LLMMgr.chat_completion` returns a string (totality
is witnessed by its Lean type — no exception escapes); whenever the
dispatched provider call fails, for any reason and at any inner step
(config resolution, normalization, transport), it returns exactly the
fixed fallback sentence, and when the call succeeds it returns the
completion. -/
theorem chat_completion_total_fallback (env : Env) (t : Transports)
    (messages : MessagesDict) :
    (∀ e : PyError, env_based_chat_completion env t messages = .error e →
      LLMMgr.chat_completion env t messages = fallbackMessage) ∧
    (∀ s : String, env_based_chat_completion env t messages = .ok s →
      LLMMgr.chat_completion env t messages = s) := by
  constructor
  · intro e he
    unfold LLMMgr.chat_completion
    rw [he]
    rfl
  · intro s hs
    unfold LLMMgr.chat_completion
    rw [hs]

/-- Witness for C1: with the default environment the Azure caller is
selected; its transport failure yields exactly the fallback sentence. -/
theorem chat_completion_total_fallback_witness :
    env_based_chat_completion (envOf [])
        ⟨.error (.external 1), .error (.external 2), .error (.external 3)⟩
        ⟨some []⟩ = .error (.external 2) ∧
    LLMMgr.chat_completion (envOf [])
        ⟨.error (.external 1), .error (.external 2), .error (.external 3)⟩
        ⟨some []⟩ = fallbackMessage := by
  refine ⟨by decide, ?_⟩
  exact (chat_completion_total_fallback (envOf []) _ _).1 (.external 2)
    (by decide)

/-- **C2.** The dispatcher's provider precedence: model type `"Ollama"`
selects the Ollama caller first (regardless of the OpenAI key flag), then
the OpenAI key flag selects the OpenAI caller, otherwise the Azure caller
runs. -/
theorem env_based_chat_completion_precedence (env : Env) (t : Transports)
    (messages : MessagesDict) :
    (get_model_type env = "Ollama" →
      env_based_chat_completion env t messages =
        _call_ollama_api env t.ollama messages) ∧
    (get_model_type env ≠ "Ollama" → use_openai_api_key env = true →
      env_based_chat_completion env t messages =
        _call_openai_api env t.openai messages) ∧
    (get_model_type env ≠ "Ollama" → use_openai_api_key env = false →
      env_based_chat_completion env t messages =
        _call_azure_api env t.azure messages) := by
  refine ⟨?_, ?_, ?_⟩
  · intro h
    simp [env_based_chat_completion, h]
  · intro h hk
    simp [env_based_chat_completion, h, hk]
  · intro h hk
    simp [env_based_chat_completion, h, hk]

/-- Witness for C2: with `MODEL_TYPE="Ollama"` and
`USE_OPENAI_API_KEY="True"` both set, the Ollama caller is invoked. -/
theorem env_based_chat_completion_precedence_witness :
    get_model_type (envOf [("MODEL_TYPE", "Ollama"),
      ("USE_OPENAI_API_KEY", "True")]) = "Ollama" ∧
    use_openai_api_key (envOf [("MODEL_TYPE", "Ollama"),
      ("USE_OPENAI_API_KEY", "True")]) = true ∧
    env_based_chat_completion (envOf [("MODEL_TYPE", "Ollama"),
        ("USE_OPENAI_API_KEY", "True")])
        ⟨.ok "from-openai", .ok "from-azure", .ok "from-ollama"⟩ ⟨some []⟩ =
      _call_ollama_api (envOf [("MODEL_TYPE", "Ollama"),
        ("USE_OPENAI_API_KEY", "True")]) (.ok "from-ollama") ⟨some []⟩ := by
  refine ⟨by decide, by decide, ?_⟩
  exact (env_based_chat_completion_precedence _ _ _).1 (by decide)

/-- **C3 (code bug).** On a pool configuration whose `custom_models` list
is non-empty, `get_all_model_ids_of_type` raises `AttributeError` instead
of returning the matching custom ids: the source reads
`custom_models.model_type` off the list itself instead of iterating it
(as `get_llm_pool` does and as the specification describes).  On
`cfgCustomOnly` the code errors while the specified result is
`["c1"]`. -/
theorem get_all_model_ids_of_type_custom_bug :
    LLMMgr.get_all_model_ids_of_type cfgCustomOnly LLMOutputTypes.CHAT
        = .error (.attributeError "list object has no attribute model_type") ∧
    spec_get_all_model_ids_of_type cfgCustomOnly LLMOutputTypes.CHAT
        = ["c1"] := by
  exact ⟨by decide, by decide⟩

/-- **C4.** When the registration sequence of a pool configuration
contains two entries with the same `unique_model_id` (the second one not
followed by any further entry with that id), the pool built by
`get_llm_pool` binds that id to the LATER entry's handle, and the pool's
keys are pairwise distinct — one entry per distinct id. -/
theorem get_llm_pool_duplicate_last_wins (cfg : LLMConfig) (mid : String)
    (h1 h2 : Handle) (l1 l2 l3 : List (String × Handle))
    (hreg : registrations cfg = l1 ++ (mid, h1) :: l2 ++ (mid, h2) :: l3)
    (hpost : ∀ p ∈ l3, p.1 ≠ mid) :
    dictGet (LLMMgr.get_llm_pool cfg) mid = some h2 ∧
    (dictKeys (LLMMgr.get_llm_pool cfg)).Nodup := by
  rw [get_llm_pool_eq_foldl, hreg]
  constructor
  · rw [dictGet_foldl_dictSetP]
    have hrev : (l1 ++ (mid, h1) :: l2 ++ (mid, h2) :: l3).reverse
        = l3.reverse ++ (mid, h2) :: (l2.reverse ++ (mid, h1) :: l1.reverse) := by
      simp [List.reverse_append]
    rw [hrev, List.find?_append]
    have h3 : l3.reverse.find? (fun p => p.1 = mid) = none := by
      rw [List.find?_eq_none]
      intro x hx
      simp only [decide_eq_true_eq]
      exact hpost x (List.mem_reverse.mp hx)
    simp [h3, Option.orElse, List.find?_cons]
  · exact nodup_dictKeys_foldl _ _ (by simp [dictKeys])

/-- Witness for C4: `cfgDup` registers a chat handle and then an
embeddings handle under the same id `"m1"`; the pool holds the later
(embeddings) handle, with distinct keys. -/
theorem get_llm_pool_duplicate_last_wins_witness :
    registrations cfgDup =
      [] ++ ("m1", .azureOpenAI "key" "https://azure.example" "v1") ::
        [] ++ ("m1", .azureEmbedding true "ada" "dep-a" "key"
          "https://azure.example" "v1" none) :: [] ∧
    dictGet (LLMMgr.get_llm_pool cfgDup) "m1" =
      some (.azureEmbedding true "ada" "dep-a" "key" "https://azure.example"
        "v1" none) ∧
    (dictKeys (LLMMgr.get_llm_pool cfgDup)).Nodup := by
  have h := get_llm_pool_duplicate_last_wins cfgDup "m1"
    (.azureOpenAI "key" "https://azure.example" "v1")
    (.azureEmbedding true "ada" "dep-a" "key" "https://azure.example" "v1"
      none) [] [] [] (by decide) (by simp)
  exact ⟨by decide, h.1, h.2⟩

/-- **C5.** On any mapping holding a `"messages"` list, the normalizer
returns, in order and 1:1, the per-entry conversion the specification
describes (`specChatMessage`): role read case-insensitively with
`"assistant"` → ASSISTANT, `"system"` → SYSTEM, anything else or absent →
USER, content defaulting to the empty string; length is preserved. -/
theorem dict_to_chat_messages_entrywise (l : List RawMessage) :
    dict_to_chat_messages ⟨some l⟩ = .ok (l.map specChatMessage) ∧
    (l.map specChatMessage).length = l.length := by
  refine ⟨?_, List.length_map _ _⟩
  unfold dict_to_chat_messages
  dsimp only
  congr 1
  apply List.map_congr_left
  intro m _
  unfold specChatMessage
  cases hr : m.role with
  | none =>
    have hu : strLower "user" = "user" := by decide
    simp [hr, hu]
  | some r => simp [hr]

/-- **C6.** The normalizer fails (with `ValueError`) exactly when the
`"messages"` key is absent; in particular it fails on the empty mapping
with the validation message of the source. -/
theorem dict_to_chat_messages_requires_messages (d : MessagesDict) :
    ((∃ e, dict_to_chat_messages d = .error e) ↔ d.messages = none) ∧
    dict_to_chat_messages ⟨none⟩ =
      .error (.valueError "Expected 'messages' key in the dictionary.") := by
  refine ⟨⟨?_, ?_⟩, rfl⟩
  · rintro ⟨e, he⟩
    cases hd : d.messages with
    | none => rfl
    | some l => simp [dict_to_chat_messages, hd] at he
  · intro hd
    obtain ⟨msgs⟩ := d
    simp only at hd
    subst hd
    exact ⟨.valueError "Expected 'messages' key in the dictionary.", rfl⟩

/-- **C7.** `use_openai_api_key` is true exactly when the environment
variable `USE_OPENAI_API_KEY` holds the literal string `"True"`; it is
false for `"true"`, `"1"`, the empty string, and when unset. -/
theorem use_openai_api_key_spec :
    (∀ env : Env, use_openai_api_key env = true ↔
      env "USE_OPENAI_API_KEY" = some "True") ∧
    use_openai_api_key (envOf [("USE_OPENAI_API_KEY", "true")]) = false ∧
    use_openai_api_key (envOf [("USE_OPENAI_API_KEY", "1")]) = false ∧
    use_openai_api_key (envOf [("USE_OPENAI_API_KEY", "")]) = false ∧
    use_openai_api_key (envOf []) = false := by
  refine ⟨?_, by decide, by decide, by decide, by decide⟩
  intro env
  unfold use_openai_api_key Env.get
  cases hv : env "USE_OPENAI_API_KEY" with
  | none => simp [hv]
  | some v => simp [hv]

/-- **C8.** `get_ollama_config` defaults `base_url` to
`"http://localhost:11434"`, `model_name` to `"llama2"` and the temperature
to `0.75`; the temperature string goes through the `float` parser, and the
call fails (with the parser's `ValueError`, which propagates uncaught to
its direct invoker, the Ollama caller) exactly when `OLLAMA_TEMPERATURE`
is set to a non-numeric string. -/
theorem get_ollama_config_spec :
    (∀ env : Env,
      (∃ e, get_ollama_config env = .error e) ↔
        ∃ s, env "OLLAMA_TEMPERATURE" = some s ∧ pythonFloat s = none) ∧
    (∀ (env : Env) (s : String) (t : PyFloat),
      env "OLLAMA_TEMPERATURE" = some s → pythonFloat s = some t →
      get_ollama_config env = .ok
        { base_url := (env "OLLAMA_BASE_URL").getD "http://localhost:11434",
          model_name := (env "OLLAMA_MODEL").getD "llama2",
          temperature := t }) ∧
    (∀ env : Env, env "OLLAMA_TEMPERATURE" = none →
      get_ollama_config env = .ok
        { base_url := (env "OLLAMA_BASE_URL").getD "http://localhost:11434",
          model_name := (env "OLLAMA_MODEL").getD "llama2",
          temperature := .finite (mkRat 3 4) }) ∧
    (∀ (env : Env) (tr : CallResult) (messages : MessagesDict) (e : PyError),
      get_ollama_config env = .error e →
      _call_ollama_api env tr messages = .error e) := by
  have h075 : pythonFloat "0.75" = some (.finite (mkRat 3 4)) := by decide
  refine ⟨?_, ?_, ?_, ?_⟩
  · intro env
    constructor
    · rintro ⟨e, he⟩
      unfold get_ollama_config Env.get at he
      cases hv : env "OLLAMA_TEMPERATURE" with
      | none => rw [hv] at he; simp [h075] at he
      | some s =>
        rw [hv] at he
        cases hp : pythonFloat s with
        | none => exact ⟨s, rfl, hp⟩
        | some t => simp [hp] at he
    · rintro ⟨s, hv, hp⟩
      refine ⟨.valueError "could not convert string to float", ?_⟩
      unfold get_ollama_config Env.get
      rw [hv]
      simp [hp]
  · intro env s t hv hp
    unfold get_ollama_config Env.get
    rw [hv]
    simp [hp]
  · intro env hv
    unfold get_ollama_config Env.get
    rw [hv]
    simp [h075]
  · intro env tr messages e he
    unfold _call_ollama_api
    rw [he]
    rfl

/-- Witness for C8: a non-numeric temperature (`"abc"`, and the
underscore-leading `"_5"`, which CPython rejects although it consists of
digit characters and an underscore) makes the call fail (and the Ollama
caller propagate the failure), while the empty environment yields all
three defaults with temperature `0.75`. -/
theorem get_ollama_config_spec_witness :
    ((envOf [("OLLAMA_TEMPERATURE", "abc")]) "OLLAMA_TEMPERATURE"
        = some "abc" ∧
      pythonFloat "abc" = none ∧
      (∃ e, get_ollama_config (envOf [("OLLAMA_TEMPERATURE", "abc")])
        = .error e)) ∧
    (pythonFloat "_5" = none ∧
      (∃ e, get_ollama_config (envOf [("OLLAMA_TEMPERATURE", "_5")])
        = .error e)) ∧
    get_ollama_config (envOf []) = .ok
      { base_url := "http://localhost:11434", model_name := "llama2",
        temperature := .finite (mkRat 3 4) } ∧
    _call_ollama_api (envOf [("OLLAMA_TEMPERATURE", "abc")])
        (.ok "unused") ⟨some []⟩ =
      .error (.valueError "could not convert string to float") := by
  refine ⟨⟨by decide, by decide, ?_⟩, ⟨by decide, ?_⟩, ?_, ?_⟩
  · exact (get_ollama_config_spec.1 _).mpr ⟨"abc", by decide, by decide⟩
  · exact (get_ollama_config_spec.1 _).mpr ⟨"_5", by decide, by decide⟩
  · exact get_ollama_config_spec.2.2.1 (envOf []) rfl
  · exact get_ollama_config_spec.2.2.2 (envOf [("OLLAMA_TEMPERATURE", "abc")])
      (.ok "unused") ⟨some []⟩ _ (by decide)

/-- **C9.** Any failure of the external interaction inside the OpenAI
caller's `try` block is re-raised as
`GlueLLMException("Error calling OpenAI API") from e` — a wrapped error
whose cause is the original exception — and it propagates as an error (not
as the fallback text, which only the dispatcher produces). -/
theorem call_openai_api_wraps (env : Env) (messages : MessagesDict)
    (cm : List ChatMessage)
    (hnorm : dict_to_chat_messages messages = .ok cm) (e : PyError) :
    _call_openai_api env (.error e) messages =
      .error (.glueLLMException "Error calling OpenAI API" e) ∧
    (PyError.glueLLMException "Error calling OpenAI API" e).cause = some e := by
  refine ⟨?_, rfl⟩
  unfold _call_openai_api
  rw [hnorm]
  rfl

/-- Witness for C9 at the empty message list and a concrete transport
exception. -/
theorem call_openai_api_wraps_witness :
    dict_to_chat_messages ⟨some []⟩ = .ok [] ∧
    _call_openai_api (envOf []) (.error (.external 0)) ⟨some []⟩ =
      .error (.glueLLMException "Error calling OpenAI API" (.external 0)) := by
  exact ⟨by decide,
    (call_openai_api_wraps (envOf []) ⟨some []⟩ [] (by decide)
      (.external 0)).1⟩

/-- **C10.** For an Azure entry of CHAT or COMPLETION type, the token
counter IS built by `maybe_add_token_counter` (here with tracking on), yet
the handle `get_llm_pool` registers for the entry is
`Handle.azureOpenAI` — carrying only the section's key/endpoint/version,
no model or deployment name and no callback manager — so
`get_tokens_used` on that handle yields nothing. -/
theorem chat_handles_without_token_counter (cfg : LLMConfig)
    (az : AzureOpenAIConfig) (m : AzureOAIModel)
    (hcfg : cfg.azure_open_ai = some az) (hm : m ∈ az.azure_oai_models)
    (hty : m.model_type = LLMOutputTypes.CHAT ∨
      m.model_type = LLMOutputTypes.COMPLETION)
    (htrack : m.track_tokens = true) :
    maybe_add_token_counter m.track_tokens m.model_name_in_azure =
      some { tokenizer_src := m.model_name_in_azure } ∧
    azureEntryHandle az m =
      some (.azureOpenAI az.api_key az.azure_endpoint az.api_version) ∧
    (m.unique_model_id,
      Handle.azureOpenAI az.api_key az.azure_endpoint az.api_version) ∈
      registrations cfg ∧
    Handle.callbackManager
      (.azureOpenAI az.api_key az.azure_endpoint az.api_version) = none ∧
    LLMMgr.get_tokens_used
      (.azureOpenAI az.api_key az.azure_endpoint az.api_version) = none := by
  have hhandle : azureEntryHandle az m =
      some (.azureOpenAI az.api_key az.azure_endpoint az.api_version) := by
    unfold azureEntryHandle
    rw [if_pos hty]
  refine ⟨?_, hhandle, ?_, rfl, rfl⟩
  · simp [maybe_add_token_counter, htrack]
  · unfold registrations
    rw [hcfg]
    apply List.mem_append_left
    apply List.mem_filterMap.mpr
    exact ⟨m, hm, by rw [hhandle]; rfl⟩

/-- Witness for C10 on the tracking chat entry of `cfgDup`. -/
theorem chat_handles_without_token_counter_witness :
    mChatTrack ∈ azDup.azure_oai_models ∧ mChatTrack.track_tokens = true ∧
    LLMMgr.get_tokens_used
      (.azureOpenAI "key" "https://azure.example" "v1") = none ∧
    ("m1", Handle.azureOpenAI "key" "https://azure.example" "v1") ∈
      registrations cfgDup := by
  have h := chat_handles_without_token_counter cfgDup azDup mChatTrack rfl
    (by decide) (Or.inl rfl) rfl
  exact ⟨by decide, rfl, h.2.2.2.2, h.2.2.1⟩
